import Mathlib

/-!
# Verification of the energy-core Delta Engine and Daily Metrics Store

Shallow embedding of `custom_components/energy_core/coordinator.py` and
`custom_components/energy_core/notification_metrics.py`.

Python floats are modelled as exact rationals (`ℚ`); Python's `round(x, n)`
(round-half-to-even on the scaled value) is modelled by `pyRound`.  The host
(Home Assistant) state registry is outside the model: a cumulative source
reading arrives as `Option ℚ` (`none` = unreadable, i.e. missing state,
unknown/unavailable, unparsable value, or missing/foreign unit, exactly the
cases in which `_read_energy_total_kwh` returns `None`), and the best-effort
carbon-intensity reading arrives as the `ℚ` produced by `_read_float_safe`
(which defaults to `0.0`).  Wall-clock timestamps (`updated_at`,
`is_weekly_trigger`) are advisory metadata not modelled; dates reach the
metrics store as ISO `YYYY-MM-DD` strings computed by the host clock, so
date arithmetic ("now minus 90 days") enters the model as an explicit
cutoff-string parameter.
-/

namespace EnergyCore

/-- Python's `round` to an integer: round half to even (banker's rounding).
`x.num.fdiv x.den` is `⌊x⌋` (the denominator is positive and `Int.fdiv`
floors), written out so the definition evaluates by kernel reduction. -/
def pyRound (x : ℚ) : ℤ :=
  let n := x.num.fdiv x.den
  let frac := x - n
  if frac < 1/2 then n
  else if 1/2 < frac then n + 1
  else if n % 2 = 0 then n else n + 1

/-- Python's `round(x, 6)`: round to 6 decimal places. -/
def round6 (x : ℚ) : ℚ := (pyRound (x * 1000000) : ℚ) / 1000000

/-- Python's `round(x, 3)`: round to 3 decimal places. -/
def round3 (x : ℚ) : ℚ := (pyRound (x * 1000) : ℚ) / 1000

/-- A rational that lies on the 6-decimal grid, i.e. a possible output of
`round6`; every kWh total the engine stores is of this shape. -/
def Micro (x : ℚ) : Prop := ∃ n : ℤ, x = (n : ℚ) / 1000000

/-- `EnergyTotals` dataclass of `coordinator.py`. -/
structure EnergyTotals where
  imported_kwh : ℚ := 0
  exported_kwh : ℚ := 0
  produced_kwh : ℚ := 0
  battery_charge_kwh : ℚ := 0
  battery_discharge_kwh : ℚ := 0
  co2_intensity_g_per_kwh : ℚ := 0
deriving DecidableEq

/-- `EnergyDeltas` dataclass of `coordinator.py`. -/
structure EnergyDeltas where
  dA_imported_kwh : ℚ := 0
  dB_exported_kwh : ℚ := 0
  dC_produced_kwh : ℚ := 0
  dD_charge_kwh : ℚ := 0
  dE_discharge_kwh : ℚ := 0
  valid : Bool := true
  reason : Option String := none
deriving DecidableEq

/-- The mutable per-coordinator state that `_async_update_data` reads and
writes: `self._prev_totals` and `self._seq`. -/
structure EngineState where
  prev_totals : Option EnergyTotals
  seq : Nat
deriving DecidableEq

/-- One invocation's inputs, at the host boundary: for each of the five
cumulative source groups, the per-entity readings that
`_read_energy_total_kwh` produced (`none` = that entity was unreadable), and
the best-effort carbon-intensity float from `_read_float_safe`. -/
structure UpdateInput where
  imported : List (Option ℚ)
  exported : List (Option ℚ)
  produced : List (Option ℚ)
  battery_charge : List (Option ℚ)
  battery_discharge : List (Option ℚ)
  co2 : ℚ
deriving DecidableEq

/-- The fields of the dict returned by `_async_update_data` that the model
keeps (`updated_at` and `is_weekly_trigger` are host-clock metadata). -/
structure UpdateResult where
  totals : EnergyTotals
  deltas : EnergyDeltas
  seq : Nat
deriving DecidableEq

/-- `MAX_KW_ASSUMED = 50.0` of `coordinator.py`. -/
def MAX_KW_ASSUMED : ℚ := 50

/-- `self._max_kwh_per_change = round(MAX_KW_ASSUMED * 1.0, 6)`. -/
def max_kwh_per_change : ℚ := round6 (MAX_KW_ASSUMED * 1)

/-- Loop body of `_sum_energy_kwh_strict`: accumulate, aborting with `none`
on the first unreadable entity. -/
def sumOpt : List (Option ℚ) → Option ℚ
  | [] => some 0
  | none :: _ => none
  | some x :: rest => (sumOpt rest).map (fun t => x + t)

/-- `_sum_energy_kwh_strict`: empty entity list gives `0.0`; any unreadable
entity invalidates the whole sum; otherwise the sum rounded to 6 places. -/
def sum_energy_kwh_strict (vals : List (Option ℚ)) : Option ℚ :=
  if vals = [] then some 0
  else (sumOpt vals).map round6

/-- `_delta_or_invalid`: monotonic + spike guard on one source's delta. -/
def delta_or_invalid (cur prev : ℚ) : ℚ × Option String :=
  let d := round6 (cur - prev)
  if d < 0 then (0, some "negative_delta")
  else if d > max_kwh_per_change then (0, some "spike_detected")
  else (d, none)

/-- `_async_update_data` of `coordinator.py` as a state transition.
The missing-input branch mirrors the source's in-place mutation: the Python
code does `totals = self._prev_totals or EnergyTotals()` followed by
`totals.co2_intensity_g_per_kwh = co2_intensity`, so when a baseline exists
the reported totals object *is* the stored baseline with its carbon-intensity
field overwritten; the model therefore stores the refreshed totals back into
`prev_totals` whenever a baseline existed.  In the all-readable branch each
sum is `some`, so the `getD 0` defaults are unreachable.  The call to
`_maybe_create_daily_snapshot` on the all-valid path touches only the
snapshot state, which is modelled separately below. -/
def async_update_data (st : EngineState) (inp : UpdateInput) :
    EngineState × UpdateResult :=
  let cur_imported := sum_energy_kwh_strict inp.imported
  let cur_exported := sum_energy_kwh_strict inp.exported
  let cur_produced := sum_energy_kwh_strict inp.produced
  let cur_charge := sum_energy_kwh_strict inp.battery_charge
  let cur_discharge := sum_energy_kwh_strict inp.battery_discharge
  let co2_intensity := inp.co2
  if cur_imported = none ∨ cur_exported = none ∨ cur_produced = none ∨
      cur_charge = none ∨ cur_discharge = none then
    let base := st.prev_totals.getD {}
    let totals := { base with co2_intensity_g_per_kwh := co2_intensity }
    ({ prev_totals := st.prev_totals.map (fun _ => totals), seq := st.seq + 1 },
     { totals := totals,
       deltas := { valid := false, reason := some "missing_input" },
       seq := st.seq + 1 })
  else
    let totals : EnergyTotals :=
      { imported_kwh := cur_imported.getD 0
        exported_kwh := cur_exported.getD 0
        produced_kwh := cur_produced.getD 0
        battery_charge_kwh := cur_charge.getD 0
        battery_discharge_kwh := cur_discharge.getD 0
        co2_intensity_g_per_kwh := co2_intensity }
    match st.prev_totals with
    | none =>
      ({ prev_totals := some totals, seq := st.seq + 1 },
       { totals := totals,
         deltas := { valid := false, reason := some "initial" },
         seq := st.seq + 1 })
    | some prev =>
      let pA := delta_or_invalid totals.imported_kwh prev.imported_kwh
      let pB := delta_or_invalid totals.exported_kwh prev.exported_kwh
      let pC := delta_or_invalid totals.produced_kwh prev.produced_kwh
      let pD := delta_or_invalid totals.battery_charge_kwh prev.battery_charge_kwh
      let pE := delta_or_invalid totals.battery_discharge_kwh prev.battery_discharge_kwh
      let invalid_reason := List.findSome? id [pA.2, pB.2, pC.2, pD.2, pE.2]
      match invalid_reason with
      | some r =>
        ({ prev_totals := some totals, seq := st.seq + 1 },
         { totals := totals,
           deltas := { valid := false, reason := some r },
           seq := st.seq + 1 })
      | none =>
        ({ prev_totals := some totals, seq := st.seq + 1 },
         { totals := totals,
           deltas :=
             { dA_imported_kwh := pA.1
               dB_exported_kwh := pB.1
               dC_produced_kwh := pC.1
               dD_charge_kwh := pD.1
               dE_discharge_kwh := pE.1
               valid := true
               reason := none },
           seq := st.seq + 1 })

/-!
## Daily Metrics Store (`notification_metrics.py`)

Snapshots are JSON objects; the model keeps them as association lists of
string keys to JSON values.  The values the store ever holds are numbers
(metric fields) and strings (the `date` field), so `JVal` has those two
constructors.  The model restricts `date` values to strings, as the store's
documented on-disk shape fixes them to ISO `YYYY-MM-DD`; a numeric date would
make the source's lexical comparisons and sort raise `TypeError`, a path no
claim exercises.  Persistence is abstracted to a save counter: `async_save`
bumps `saves` when the store is loaded (the `last_updated` timestamp it also
writes is advisory host-clock metadata). -/

/-- A JSON scalar as stored in a snapshot. -/
inductive JVal where
  | num : ℚ → JVal
  | str : String → JVal
deriving DecidableEq

/-- A daily snapshot: a JSON object, keys unique as in a Python dict. -/
abbrev Snapshot := List (String × JVal)

/-- `snapshot.get(k)`: first binding of `k`, `None` when absent. -/
def sget (s : Snapshot) (k : String) : Option JVal := List.lookup k s

/-- `snapshot.get("date", "")` as used for lexical comparison and as sort
key: the date string, defaulting to `""` when absent. -/
def dateKey (s : Snapshot) : String :=
  match sget s "date" with
  | some (.str d) => d
  | _ => ""

/-- Python truthiness of the retrieved `date` value (`if not snapshot_date`):
`None`, the empty string and the number `0` are falsy. -/
def dateTruthy : Option JVal → Bool
  | none => false
  | some (.str d) => !(d == "")
  | some (.num q) => !(q == 0)

/-- In-memory state of `NotificationMetricsStore`: the `daily_snapshots`
list, the `_loaded` flag, and the number of completed saves. -/
structure MetricsStore where
  daily_snapshots : List Snapshot
  loaded : Bool
  saves : Nat
deriving DecidableEq

/-- `async_save`: refuses to persist before loading, else persists. -/
def async_save (st : MetricsStore) : MetricsStore :=
  if st.loaded then { st with saves := st.saves + 1 } else st

/-- Descending-by-date ordering used by
`daily_snapshots.sort(key=..., reverse=True)`. -/
def dateDesc (a b : Snapshot) : Prop := dateKey b ≤ dateKey a

instance : DecidableRel dateDesc := fun a b =>
  inferInstanceAs (Decidable (dateKey b ≤ dateKey a))

/-- `_cleanup_old_snapshots`, with the host-computed cutoff
(`(now - timedelta(days=90)).date().isoformat()`) passed explicitly:
keep snapshots whose date is lexically `≥ cutoff`, and save iff the pass
dropped at least one record. -/
def cleanup_old_snapshots (cutoff : String) (st : MetricsStore) : MetricsStore :=
  let kept := st.daily_snapshots.filter (fun s => cutoff ≤ dateKey s)
  let st' := { st with daily_snapshots := kept }
  if kept.length < st.daily_snapshots.length then async_save st' else st'

/-- `async_load`, with the persistence layer abstracted: `disk` is the
snapshot list recovered from storage (`[]` on absence or corruption), after
which the store is marked loaded and the retention pass runs. -/
def async_load (disk : List Snapshot) (cutoff : String) (saves0 : Nat) :
    MetricsStore :=
  cleanup_old_snapshots cutoff
    { daily_snapshots := disk, loaded := true, saves := saves0 }

/-- `add_daily_snapshot`: reject a snapshot whose date is falsy; otherwise
drop records with the same date, append, re-sort newest-first (Python's
stable sort with `reverse=True`), and save.  The source's lazy
`async_load` when not yet loaded involves the persistence layer and is not
modelled; the theorems below operate on loaded stores. -/
def add_daily_snapshot (st : MetricsStore) (snapshot : Snapshot) : MetricsStore :=
  let snapshot_date := sget snapshot "date"
  if dateTruthy snapshot_date then
    let filtered := st.daily_snapshots.filter (fun s => sget s "date" ≠ snapshot_date)
    let sorted := List.insertionSort dateDesc (filtered ++ [snapshot])
    async_save { st with daily_snapshots := sorted }
  else st

/-- The numeric value of metric `key` in a snapshot, when present and
numeric (`isinstance(s.get(key), (int, float))`). -/
def numVal (s : Snapshot) (key : String) : Option ℚ :=
  match sget s key with
  | some (.num q) => some q
  | _ => none

/-- The `relevant_snapshots` filter shared by the three window queries:
date lexically `≥ cutoff` and the metric key present. -/
def relevant_snapshots (st : MetricsStore) (key cutoff : String) : List Snapshot :=
  st.daily_snapshots.filter
    (fun s => decide (cutoff ≤ dateKey s) && (sget s key).isSome)

/-- `get_average`, with the host-computed window cutoff passed explicitly. -/
def get_average (st : MetricsStore) (key cutoff : String) : ℚ :=
  if !st.loaded then 0
  else
    let relevant := relevant_snapshots st key cutoff
    if relevant = [] then 0
    else
      let values := relevant.filterMap (fun s => numVal s key)
      if values = [] then 0 else values.sum / values.length

/-- `get_min`: minimum over the window, `999999` sentinel when no data. -/
def get_min (st : MetricsStore) (key cutoff : String) : ℚ :=
  if !st.loaded then 999999
  else
    let relevant := relevant_snapshots st key cutoff
    if relevant = [] then 999999
    else
      let values := relevant.filterMap (fun s => numVal s key)
      match values with
      | [] => 999999
      | v :: vs => vs.foldl min v

/-- `get_max`: maximum over the window, `0.0` sentinel when no data. -/
def get_max (st : MetricsStore) (key cutoff : String) : ℚ :=
  if !st.loaded then 0
  else
    let relevant := relevant_snapshots st key cutoff
    if relevant = [] then 0
    else
      let values := relevant.filterMap (fun s => numVal s key)
      match values with
      | [] => 0
      | v :: vs => vs.foldl max v

/-!
## Daily snapshot creation (`coordinator.py`)

`_build_daily_snapshot` reads derived day sensors through
`_read_float_safe`; those already-parsed floats are the model's inputs.  The
self-sufficiency sensor keeps its unavailable/unparsable cases separate
because the source treats them separately (leaving the ratio at `0.0`). -/

/-- The day-sensor readings `_build_daily_snapshot` consumes: the four
`_read_float_safe` results and the self-sufficiency percentage (`none` when
the state is missing, unknown/unavailable, or fails to parse). -/
structure DailyInputs where
  net_use : ℚ
  production : ℚ
  export_kwh : ℚ
  emissions : ℚ
  self_sufficiency_pct : Option ℚ
deriving DecidableEq

/-- `_build_daily_snapshot`, with `today` the host-clock ISO date. -/
def build_daily_snapshot (today : String) (inp : DailyInputs) : Option Snapshot :=
  let self_sufficiency : ℚ :=
    match inp.self_sufficiency_pct with
    | some v => v / 100
    | none => 0
  let night_use := inp.net_use * (7 / 24)
  if inp.net_use = 0 ∧ inp.production = 0 then none
  else some
    [("date", .str today),
     ("net_use", .num (round3 inp.net_use)),
     ("production", .num (round3 inp.production)),
     ("export", .num (round3 inp.export_kwh)),
     ("night_use", .num (round3 night_use)),
     ("emissions", .num (round3 inp.emissions)),
     ("self_sufficiency", .num (round3 self_sufficiency))]

/-- The snapshot-related coordinator state: `self.metrics_store` and
`self._last_snapshot_date`. -/
structure SnapshotState where
  metrics_store : MetricsStore
  last_snapshot_date : Option String
deriving DecidableEq

/-- `_maybe_create_daily_snapshot`: skip when today's snapshot was already
created; otherwise build, and on a (necessarily non-empty, hence truthy)
snapshot upsert it and record today's date. -/
def maybe_create_daily_snapshot (today : String) (inp : DailyInputs)
    (s : SnapshotState) : SnapshotState :=
  if s.last_snapshot_date = some today then s
  else
    match build_daily_snapshot today inp with
    | some snap =>
      { metrics_store := add_daily_snapshot s.metrics_store snap,
        last_snapshot_date := some today }
    | none => s

/-- A day's worth of snapshot triggers (midnight callback and post-midnight
recomputations) run in sequence, counting how many triggers actually created
(upserted) a snapshot. -/
def run_snapshot_triggers (today : String) (s : SnapshotState) :
    List DailyInputs → SnapshotState × Nat
  | [] => (s, 0)
  | inp :: rest =>
    let s' := maybe_create_daily_snapshot today inp s
    let created : Nat :=
      if s.last_snapshot_date ≠ some today ∧
          (build_daily_snapshot today inp).isSome then 1 else 0
    let r := run_snapshot_triggers today s' rest
    (r.1, created + r.2)

/-!
## Multi-cycle runs of the engine
-/

/-- Feed one `EnergyTotals` record to the engine as a cycle's input: each of
the five cumulative sources reads back as a single readable entity carrying
that field, carbon intensity as the record's value. -/
def inputOfTotals (t : EnergyTotals) : UpdateInput :=
  ⟨[some t.imported_kwh], [some t.exported_kwh], [some t.produced_kwh],
   [some t.battery_charge_kwh], [some t.battery_discharge_kwh],
   t.co2_intensity_g_per_kwh⟩

/-- Run a sequence of compute cycles, collecting every result in order. -/
def runUpdates (st : EngineState) :
    List UpdateInput → EngineState × List UpdateResult
  | [] => (st, [])
  | inp :: rest =>
    let out := async_update_data st inp
    let r := runUpdates out.1 rest
    (r.1, out.2 :: r.2)

/-- All five cumulative fields lie on the 6-decimal grid (as every value
produced by `_sum_energy_kwh_strict` does). -/
def MicroTotals (t : EnergyTotals) : Prop :=
  Micro t.imported_kwh ∧ Micro t.exported_kwh ∧ Micro t.produced_kwh ∧
  Micro t.battery_charge_kwh ∧ Micro t.battery_discharge_kwh

/-- The per-cycle change from `p` to `t` is acceptable for every source:
neither negative nor above the spike ceiling. -/
def StepOk (p t : EnergyTotals) : Prop :=
  (0 ≤ t.imported_kwh - p.imported_kwh ∧
    t.imported_kwh - p.imported_kwh ≤ max_kwh_per_change) ∧
  (0 ≤ t.exported_kwh - p.exported_kwh ∧
    t.exported_kwh - p.exported_kwh ≤ max_kwh_per_change) ∧
  (0 ≤ t.produced_kwh - p.produced_kwh ∧
    t.produced_kwh - p.produced_kwh ≤ max_kwh_per_change) ∧
  (0 ≤ t.battery_charge_kwh - p.battery_charge_kwh ∧
    t.battery_charge_kwh - p.battery_charge_kwh ≤ max_kwh_per_change) ∧
  (0 ≤ t.battery_discharge_kwh - p.battery_discharge_kwh ∧
    t.battery_discharge_kwh - p.battery_discharge_kwh ≤ max_kwh_per_change)

/-!
## Basic lemmas
-/

lemma pyRound_intCast (n : ℤ) : pyRound (n : ℚ) = n := by
  simp [pyRound]

lemma round6_micro_fix (n : ℤ) : round6 ((n : ℚ) / 1000000) = (n : ℚ) / 1000000 := by
  have h : ((n : ℚ) / 1000000) * 1000000 = (n : ℚ) := by
    field_simp
  rw [round6, h, pyRound_intCast]

lemma Micro.round6_eq {x : ℚ} (h : Micro x) : round6 x = x := by
  obtain ⟨n, rfl⟩ := h
  exact round6_micro_fix n

lemma Micro.sub {x y : ℚ} (hx : Micro x) (hy : Micro y) : Micro (x - y) := by
  obtain ⟨n, rfl⟩ := hx
  obtain ⟨m, rfl⟩ := hy
  exact ⟨n - m, by push_cast; ring⟩

lemma micro_round6 (x : ℚ) : Micro (round6 x) := ⟨pyRound (x * 1000000), rfl⟩

lemma sum_energy_kwh_strict_singleton (x : ℚ) :
    sum_energy_kwh_strict [some x] = some (round6 x) := by
  simp [sum_energy_kwh_strict, sumOpt]

/-- Evaluation helper: `round6 x` for an `x` whose scaling by `10^6` is the
integer `n`. -/
lemma round6_of_eq_int (x : ℚ) (n : ℤ) (h : x * 1000000 = (n : ℚ)) :
    round6 x = (n : ℚ) / 1000000 := by
  rw [round6, h, pyRound_intCast]

lemma max_kwh_per_change_eq : max_kwh_per_change = 50 := by
  have : (50 : ℚ) = (50000000 : ℤ) / 1000000 := by norm_num
  rw [max_kwh_per_change, MAX_KW_ASSUMED, mul_one, this, round6_micro_fix]

/-- The missing-input branch of `_async_update_data`, in closed form. -/
lemma async_update_data_missing (st : EngineState) (inp : UpdateInput)
    (h : sum_energy_kwh_strict inp.imported = none ∨
      sum_energy_kwh_strict inp.exported = none ∨
      sum_energy_kwh_strict inp.produced = none ∨
      sum_energy_kwh_strict inp.battery_charge = none ∨
      sum_energy_kwh_strict inp.battery_discharge = none) :
    async_update_data st inp =
      ({ prev_totals := st.prev_totals.map
           (fun p => { p with co2_intensity_g_per_kwh := inp.co2 }),
         seq := st.seq + 1 },
       { totals := { st.prev_totals.getD {} with co2_intensity_g_per_kwh := inp.co2 },
         deltas := { valid := false, reason := some "missing_input" },
         seq := st.seq + 1 }) := by
  cases hp : st.prev_totals with
  | none => simp [async_update_data, h, hp]
  | some p => simp [async_update_data, h, hp]

lemma delta_or_invalid_reason (c p : ℚ) :
    (delta_or_invalid c p).2 = none ∨
    (delta_or_invalid c p).2 = some "negative_delta" ∨
    (delta_or_invalid c p).2 = some "spike_detected" := by
  unfold delta_or_invalid
  dsimp only
  split
  · simp
  · split <;> simp

lemma reason_mem_classify {c p : ℚ} {r : String}
    (h : some r = (delta_or_invalid c p).2) :
    r = "negative_delta" ∨ r = "spike_detected" := by
  rcases delta_or_invalid_reason c p with h2 | h2 | h2 <;> rw [h2] at h <;>
    simp_all

lemma findSome?_id_mem {l : List (Option String)} {r : String}
    (h : List.findSome? id l = some r) : (some r) ∈ l := by
  induction l with
  | nil => simp [List.findSome?] at h
  | cons a t ih =>
    cases a with
    | none =>
      rw [List.findSome?] at h
      exact List.mem_cons_of_mem _ (ih h)
    | some v =>
      rw [List.findSome?] at h
      simp only [id] at h
      simp_all

/-- Both the stored and the returned sequence number advance by one in
every branch of `_async_update_data`. -/
lemma async_update_data_seq (st : EngineState) (inp : UpdateInput) :
    (async_update_data st inp).2.seq = st.seq + 1 ∧
    (async_update_data st inp).1.seq = st.seq + 1 := by
  unfold async_update_data
  dsimp only
  split
  · simp
  · split
    · simp
    · split <;> simp

lemma delta_or_invalid_snd (c pv : ℚ) :
    (delta_or_invalid c pv).2 =
      (if round6 (c - pv) < 0 then some "negative_delta"
       else if round6 (c - pv) > max_kwh_per_change then some "spike_detected"
       else none) := by
  unfold delta_or_invalid
  dsimp only
  split
  · simp_all
  · split <;> simp_all

lemma delta_or_invalid_fst (c pv : ℚ) :
    (delta_or_invalid c pv).1 =
      if (delta_or_invalid c pv).2 = none then round6 (c - pv) else 0 := by
  unfold delta_or_invalid
  dsimp only
  split
  · simp_all
  · split <;> simp_all

/-- The first-successful-reading branch of `_async_update_data`, in closed
form. -/
lemma async_update_data_initial
    (st : EngineState) (inp : UpdateInput)
    (cI cEx cP cC cD : ℚ)
    (hp : st.prev_totals = none)
    (hI : sum_energy_kwh_strict inp.imported = some cI)
    (hEx : sum_energy_kwh_strict inp.exported = some cEx)
    (hP : sum_energy_kwh_strict inp.produced = some cP)
    (hC : sum_energy_kwh_strict inp.battery_charge = some cC)
    (hD : sum_energy_kwh_strict inp.battery_discharge = some cD) :
    async_update_data st inp =
      ({ prev_totals := some ⟨cI, cEx, cP, cC, cD, inp.co2⟩, seq := st.seq + 1 },
       { totals := ⟨cI, cEx, cP, cC, cD, inp.co2⟩,
         deltas := { valid := false, reason := some "initial" },
         seq := st.seq + 1 }) := by
  unfold async_update_data
  simp only [hI, hEx, hP, hC, hD, hp, Option.getD_some]
  have hcond : ¬(some cI = none ∨ some cEx = none ∨ some cP = none ∨
      some cC = none ∨ some cD = none) := by simp
  rw [if_neg hcond]

/-- The established-baseline branch of `_async_update_data`, in closed
form. -/
lemma async_update_data_readable
    (st : EngineState) (inp : UpdateInput) (p : EnergyTotals)
    (cI cEx cP cC cD : ℚ)
    (hp : st.prev_totals = some p)
    (hI : sum_energy_kwh_strict inp.imported = some cI)
    (hEx : sum_energy_kwh_strict inp.exported = some cEx)
    (hP : sum_energy_kwh_strict inp.produced = some cP)
    (hC : sum_energy_kwh_strict inp.battery_charge = some cC)
    (hD : sum_energy_kwh_strict inp.battery_discharge = some cD) :
    async_update_data st inp =
      (match List.findSome? id
          [(delta_or_invalid cI p.imported_kwh).2,
           (delta_or_invalid cEx p.exported_kwh).2,
           (delta_or_invalid cP p.produced_kwh).2,
           (delta_or_invalid cC p.battery_charge_kwh).2,
           (delta_or_invalid cD p.battery_discharge_kwh).2] with
       | some r =>
         ({ prev_totals := some ⟨cI, cEx, cP, cC, cD, inp.co2⟩, seq := st.seq + 1 },
          { totals := ⟨cI, cEx, cP, cC, cD, inp.co2⟩,
            deltas := { valid := false, reason := some r },
            seq := st.seq + 1 })
       | none =>
         ({ prev_totals := some ⟨cI, cEx, cP, cC, cD, inp.co2⟩, seq := st.seq + 1 },
          { totals := ⟨cI, cEx, cP, cC, cD, inp.co2⟩,
            deltas :=
              ⟨(delta_or_invalid cI p.imported_kwh).1,
               (delta_or_invalid cEx p.exported_kwh).1,
               (delta_or_invalid cP p.produced_kwh).1,
               (delta_or_invalid cC p.battery_charge_kwh).1,
               (delta_or_invalid cD p.battery_discharge_kwh).1,
               true, none⟩,
            seq := st.seq + 1 })) := by
  unfold async_update_data
  simp only [hI, hEx, hP, hC, hD, hp, Option.getD_some]
  have hcond : ¬(some cI = none ∨ some cEx = none ∨ some cP = none ∨
      some cC = none ∨ some cD = none) := by simp
  rw [if_neg hcond]

lemma delta_or_invalid_ok {c pv : ℚ} (hmc : Micro c) (hmp : Micro pv)
    (h0 : 0 ≤ c - pv) (h1 : c - pv ≤ max_kwh_per_change) :
    delta_or_invalid c pv = (c - pv, none) := by
  have hd : round6 (c - pv) = c - pv := (hmc.sub hmp).round6_eq
  unfold delta_or_invalid
  dsimp only
  rw [hd, if_neg (not_lt.mpr h0), if_neg (not_lt.mpr h1)]

lemma sum_singleton_micro {x : ℚ} (h : Micro x) :
    sum_energy_kwh_strict [some x] = some x := by
  rw [sum_energy_kwh_strict_singleton, h.round6_eq]

/-- One all-accepted cycle: with baseline `p` and a new reading `t`, both on
the 6-decimal grid and with every per-source change in `[0, ceiling]`, the
engine reports exactly the differences and re-baselines to `t`. -/
lemma async_update_data_step (st : EngineState) (p t : EnergyTotals)
    (hp : st.prev_totals = some p)
    (hmp : MicroTotals p) (hmt : MicroTotals t) (hok : StepOk p t) :
    async_update_data st (inputOfTotals t) =
      ({ prev_totals := some t, seq := st.seq + 1 },
       { totals := t,
         deltas := ⟨t.imported_kwh - p.imported_kwh,
           t.exported_kwh - p.exported_kwh,
           t.produced_kwh - p.produced_kwh,
           t.battery_charge_kwh - p.battery_charge_kwh,
           t.battery_discharge_kwh - p.battery_discharge_kwh,
           true, none⟩,
         seq := st.seq + 1 }) := by
  have hkey := async_update_data_readable st (inputOfTotals t) p
    t.imported_kwh t.exported_kwh t.produced_kwh
    t.battery_charge_kwh t.battery_discharge_kwh hp
    (sum_singleton_micro hmt.1) (sum_singleton_micro hmt.2.1)
    (sum_singleton_micro hmt.2.2.1) (sum_singleton_micro hmt.2.2.2.1)
    (sum_singleton_micro hmt.2.2.2.2)
  rw [delta_or_invalid_ok hmt.1 hmp.1 hok.1.1 hok.1.2,
    delta_or_invalid_ok hmt.2.1 hmp.2.1 hok.2.1.1 hok.2.1.2,
    delta_or_invalid_ok hmt.2.2.1 hmp.2.2.1 hok.2.2.1.1 hok.2.2.1.2,
    delta_or_invalid_ok hmt.2.2.2.1 hmp.2.2.2.1 hok.2.2.2.1.1 hok.2.2.2.1.2,
    delta_or_invalid_ok hmt.2.2.2.2 hmp.2.2.2.2 hok.2.2.2.2.1 hok.2.2.2.2.2]
    at hkey
  simpa using hkey

/-- Telescoping run from an established baseline: all deltas are accepted
and their per-source sums telescope to last-minus-baseline. -/
lemma runUpdates_telescope (ts : List EnergyTotals) :
    ∀ (p : EnergyTotals) (n : ℕ), MicroTotals p → (∀ t ∈ ts, MicroTotals t) →
    List.Chain StepOk p ts →
    ((runUpdates ⟨some p, n⟩ (ts.map inputOfTotals)).2.map
        (fun r => r.deltas.dA_imported_kwh)).sum
      = (ts.getLastD p).imported_kwh - p.imported_kwh ∧
    ((runUpdates ⟨some p, n⟩ (ts.map inputOfTotals)).2.map
        (fun r => r.deltas.dB_exported_kwh)).sum
      = (ts.getLastD p).exported_kwh - p.exported_kwh ∧
    ((runUpdates ⟨some p, n⟩ (ts.map inputOfTotals)).2.map
        (fun r => r.deltas.dC_produced_kwh)).sum
      = (ts.getLastD p).produced_kwh - p.produced_kwh ∧
    ((runUpdates ⟨some p, n⟩ (ts.map inputOfTotals)).2.map
        (fun r => r.deltas.dD_charge_kwh)).sum
      = (ts.getLastD p).battery_charge_kwh - p.battery_charge_kwh ∧
    ((runUpdates ⟨some p, n⟩ (ts.map inputOfTotals)).2.map
        (fun r => r.deltas.dE_discharge_kwh)).sum
      = (ts.getLastD p).battery_discharge_kwh - p.battery_discharge_kwh ∧
    (runUpdates ⟨some p, n⟩ (ts.map inputOfTotals)).1.prev_totals
      = some (ts.getLastD p) := by
  induction ts with
  | nil =>
    intro p n _ _ _
    simp [runUpdates, List.getLastD]
  | cons t rest ih =>
    intro p n hmp hmts hchain
    rcases List.chain_cons.mp hchain with ⟨hok, hchain'⟩
    have hstep := async_update_data_step ⟨some p, n⟩ p t rfl hmp
      (hmts t (List.mem_cons_self t rest)) hok
    have hrest := ih t (n + 1) (hmts t (List.mem_cons_self t rest))
      (fun u hu => hmts u (List.mem_cons_of_mem _ hu)) hchain'
    simp only [List.map_cons, runUpdates, hstep, List.getLastD_cons]
    refine ⟨?_, ?_, ?_, ?_, ?_, hrest.2.2.2.2.2⟩
    · rw [List.sum_cons, hrest.1]; ring
    · rw [List.sum_cons, hrest.2.1]; ring
    · rw [List.sum_cons, hrest.2.2.1]; ring
    · rw [List.sum_cons, hrest.2.2.2.1]; ring
    · rw [List.sum_cons, hrest.2.2.2.2.1]; ring

/-!
## Claim theorems
-/

/-- C1 counterexample: in a missing-input cycle with an existing baseline
and a fresh carbon-intensity reading, the stored previous-totals baseline
*is* updated (its carbon-intensity field changes in place), refuting the
claim's "the stored previous-totals baseline is not updated" as stated. -/
theorem missing_input_updates_baseline_counterexample :
    (async_update_data ⟨some ⟨1, 2, 3, 4, 5, 0⟩, 0⟩
        ⟨[none], [some 2], [some 3], [some 4], [some 5], 7⟩).2.deltas.reason
      = some "missing_input" ∧
    (async_update_data ⟨some ⟨1, 2, 3, 4, 5, 0⟩, 0⟩
        ⟨[none], [some 2], [some 3], [some 4], [some 5], 7⟩).1.prev_totals
      ≠ (⟨some ⟨1, 2, 3, 4, 5, 0⟩, 0⟩ : EngineState).prev_totals := by
  decide

/-- C1 (amended): when any of the five cumulative sources is unreadable the
result is invalid with reason `missing_input` and all deltas zero; the five
cumulative fields of the stored baseline are not updated (only its
carbon-intensity field is refreshed in place, because the reported totals
object is the stored baseline itself), so a later delta is taken against the
pre-gap cumulative baseline; the reported totals equal the last known-good
baseline (all zeros when none exists yet) with carbon intensity refreshed to
the current best-effort reading. -/
theorem missing_input_freezes_cumulative_baseline
    (st : EngineState) (inp : UpdateInput)
    (h : sum_energy_kwh_strict inp.imported = none ∨
      sum_energy_kwh_strict inp.exported = none ∨
      sum_energy_kwh_strict inp.produced = none ∨
      sum_energy_kwh_strict inp.battery_charge = none ∨
      sum_energy_kwh_strict inp.battery_discharge = none) :
    (async_update_data st inp).2.deltas.valid = false ∧
    (async_update_data st inp).2.deltas.reason = some "missing_input" ∧
    (async_update_data st inp).2.deltas.dA_imported_kwh = 0 ∧
    (async_update_data st inp).2.deltas.dB_exported_kwh = 0 ∧
    (async_update_data st inp).2.deltas.dC_produced_kwh = 0 ∧
    (async_update_data st inp).2.deltas.dD_charge_kwh = 0 ∧
    (async_update_data st inp).2.deltas.dE_discharge_kwh = 0 ∧
    (async_update_data st inp).2.totals =
      { st.prev_totals.getD {} with co2_intensity_g_per_kwh := inp.co2 } ∧
    (async_update_data st inp).1.prev_totals =
      st.prev_totals.map (fun p => { p with co2_intensity_g_per_kwh := inp.co2 }) ∧
    (st.prev_totals = none → (async_update_data st inp).1.prev_totals = none) ∧
    (∀ p, st.prev_totals = some p →
      ∃ b, (async_update_data st inp).1.prev_totals = some b ∧
        b.imported_kwh = p.imported_kwh ∧
        b.exported_kwh = p.exported_kwh ∧
        b.produced_kwh = p.produced_kwh ∧
        b.battery_charge_kwh = p.battery_charge_kwh ∧
        b.battery_discharge_kwh = p.battery_discharge_kwh ∧
        b.co2_intensity_g_per_kwh = inp.co2) := by
  rw [async_update_data_missing st inp h]
  refine ⟨rfl, rfl, rfl, rfl, rfl, rfl, rfl, rfl, rfl, ?_, ?_⟩
  · intro hp; rw [hp]; rfl
  · intro p hp
    rw [hp]
    exact ⟨_, rfl, rfl, rfl, rfl, rfl, rfl, rfl⟩

theorem missing_input_freezes_cumulative_baseline_witness :
    (sum_energy_kwh_strict [none] = none ∨
      sum_energy_kwh_strict [some (2 : ℚ)] = none ∨
      sum_energy_kwh_strict [some (3 : ℚ)] = none ∨
      sum_energy_kwh_strict [some (4 : ℚ)] = none ∨
      sum_energy_kwh_strict [some (5 : ℚ)] = none) ∧
    (async_update_data ⟨some ⟨1, 2, 3, 4, 5, 0⟩, 0⟩
        ⟨[none], [some 2], [some 3], [some 4], [some 5], 7⟩).2.deltas.reason
      = some "missing_input" :=
  ⟨by decide,
   (missing_input_freezes_cumulative_baseline
      ⟨some ⟨1, 2, 3, 4, 5, 0⟩, 0⟩
      ⟨[none], [some 2], [some 3], [some 4], [some 5], 7⟩ (by decide)).2.1⟩

/-- C9: in a missing-input cycle with an existing baseline, the totals the
caller receives and the stored baseline are one and the same value: the
baseline's carbon-intensity field now equals the current best-effort reading
while its five cumulative fields are unchanged. -/
theorem missing_input_aliases_baseline_totals
    (st : EngineState) (inp : UpdateInput) (p : EnergyTotals)
    (hp : st.prev_totals = some p)
    (h : sum_energy_kwh_strict inp.imported = none ∨
      sum_energy_kwh_strict inp.exported = none ∨
      sum_energy_kwh_strict inp.produced = none ∨
      sum_energy_kwh_strict inp.battery_charge = none ∨
      sum_energy_kwh_strict inp.battery_discharge = none) :
    (async_update_data st inp).1.prev_totals =
      some ((async_update_data st inp).2.totals) ∧
    (async_update_data st inp).2.totals.co2_intensity_g_per_kwh = inp.co2 ∧
    (async_update_data st inp).2.totals.imported_kwh = p.imported_kwh ∧
    (async_update_data st inp).2.totals.exported_kwh = p.exported_kwh ∧
    (async_update_data st inp).2.totals.produced_kwh = p.produced_kwh ∧
    (async_update_data st inp).2.totals.battery_charge_kwh = p.battery_charge_kwh ∧
    (async_update_data st inp).2.totals.battery_discharge_kwh = p.battery_discharge_kwh ∧
    (async_update_data st inp).2.deltas.reason = some "missing_input" := by
  rw [async_update_data_missing st inp h, hp]
  exact ⟨rfl, rfl, rfl, rfl, rfl, rfl, rfl, rfl⟩

theorem missing_input_aliases_baseline_totals_witness :
    ((⟨some ⟨1, 2, 3, 4, 5, 0⟩, 0⟩ : EngineState).prev_totals
       = some ⟨1, 2, 3, 4, 5, 0⟩) ∧
    (sum_energy_kwh_strict [none] = none ∨
      sum_energy_kwh_strict [some (2 : ℚ)] = none ∨
      sum_energy_kwh_strict [some (3 : ℚ)] = none ∨
      sum_energy_kwh_strict [some (4 : ℚ)] = none ∨
      sum_energy_kwh_strict [some (5 : ℚ)] = none) ∧
    (async_update_data ⟨some ⟨1, 2, 3, 4, 5, 0⟩, 0⟩
        ⟨[none], [some 2], [some 3], [some 4], [some 5], 7⟩).1.prev_totals =
      some ((async_update_data ⟨some ⟨1, 2, 3, 4, 5, 0⟩, 0⟩
        ⟨[none], [some 2], [some 3], [some 4], [some 5], 7⟩).2.totals) :=
  ⟨by decide, by decide,
   (missing_input_aliases_baseline_totals
      ⟨some ⟨1, 2, 3, 4, 5, 0⟩, 0⟩
      ⟨[none], [some 2], [some 3], [some 4], [some 5], 7⟩
      ⟨1, 2, 3, 4, 5, 0⟩ rfl (by decide)).1⟩

/-- C7: the sequence number of every invocation's result is exactly one
greater than the engine's stored sequence number, the stored number advances
with it, and hence two consecutive invocations (whatever their branches)
yield results whose sequence numbers differ by exactly one. -/
theorem seq_increments_every_invocation
    (st : EngineState) (inp inp2 : UpdateInput) :
    (async_update_data st inp).2.seq = st.seq + 1 ∧
    (async_update_data st inp).1.seq = st.seq + 1 ∧
    (async_update_data (async_update_data st inp).1 inp2).2.seq
      = (async_update_data st inp).2.seq + 1 := by
  refine ⟨(async_update_data_seq st inp).1, (async_update_data_seq st inp).2, ?_⟩
  rw [(async_update_data_seq (async_update_data st inp).1 inp2).1,
    (async_update_data_seq st inp).2, (async_update_data_seq st inp).1]

/-- C6: the `EnergyDeltas` invariant of every result of
`_async_update_data`: an invalid result carries all-zero deltas and one of
the four enumerated reasons; a valid result carries no reason. -/
theorem energy_deltas_invariant (st : EngineState) (inp : UpdateInput) :
    ((async_update_data st inp).2.deltas.valid = false →
      (async_update_data st inp).2.deltas.dA_imported_kwh = 0 ∧
      (async_update_data st inp).2.deltas.dB_exported_kwh = 0 ∧
      (async_update_data st inp).2.deltas.dC_produced_kwh = 0 ∧
      (async_update_data st inp).2.deltas.dD_charge_kwh = 0 ∧
      (async_update_data st inp).2.deltas.dE_discharge_kwh = 0 ∧
      ((async_update_data st inp).2.deltas.reason = some "initial" ∨
       (async_update_data st inp).2.deltas.reason = some "missing_input" ∨
       (async_update_data st inp).2.deltas.reason = some "negative_delta" ∨
       (async_update_data st inp).2.deltas.reason = some "spike_detected")) ∧
    ((async_update_data st inp).2.deltas.valid = true →
      (async_update_data st inp).2.deltas.reason = none) := by
  unfold async_update_data
  dsimp only
  split
  · simp
  · split
    · simp
    · split
      · rename_i r heq
        have hm := findSome?_id_mem heq
        simp only [List.mem_cons, List.not_mem_nil, or_false] at hm
        have hr : r = "negative_delta" ∨ r = "spike_detected" := by
          rcases hm with h1 | h1 | h1 | h1 | h1 <;> exact reason_mem_classify h1
        rcases hr with h | h <;> simp [h]
      · simp

/-- C2: with all five sources readable and a baseline `p` in place, each
per-source delta is `round(current - previous, 6)`; a negative delta is
classified `negative_delta` and a delta above the per-cycle ceiling
`spike_detected`, in both cases forcing that source's contribution to 0;
if any source is classified invalid, the overall result is invalid with
reason equal to the first invalid reason in source order (import, export,
produced, charge, discharge) and the baseline is re-armed to the current
totals; otherwise all five deltas are reported and the baseline advances. -/
theorem readable_cycle_delta_classification
    (st : EngineState) (inp : UpdateInput) (p : EnergyTotals)
    (cI cEx cP cC cD dI dEx dP dC dD : ℚ) (rI rEx rP rC rD : Option String)
    (hp : st.prev_totals = some p)
    (hI : sum_energy_kwh_strict inp.imported = some cI)
    (hEx : sum_energy_kwh_strict inp.exported = some cEx)
    (hP : sum_energy_kwh_strict inp.produced = some cP)
    (hC : sum_energy_kwh_strict inp.battery_charge = some cC)
    (hD : sum_energy_kwh_strict inp.battery_discharge = some cD)
    (hdI : dI = round6 (cI - p.imported_kwh))
    (hdEx : dEx = round6 (cEx - p.exported_kwh))
    (hdP : dP = round6 (cP - p.produced_kwh))
    (hdC : dC = round6 (cC - p.battery_charge_kwh))
    (hdD : dD = round6 (cD - p.battery_discharge_kwh))
    (hrI : rI = if dI < 0 then some "negative_delta"
      else if dI > max_kwh_per_change then some "spike_detected" else none)
    (hrEx : rEx = if dEx < 0 then some "negative_delta"
      else if dEx > max_kwh_per_change then some "spike_detected" else none)
    (hrP : rP = if dP < 0 then some "negative_delta"
      else if dP > max_kwh_per_change then some "spike_detected" else none)
    (hrC : rC = if dC < 0 then some "negative_delta"
      else if dC > max_kwh_per_change then some "spike_detected" else none)
    (hrD : rD = if dD < 0 then some "negative_delta"
      else if dD > max_kwh_per_change then some "spike_detected" else none) :
    (List.findSome? id [rI, rEx, rP, rC, rD] = none →
      (async_update_data st inp).2.deltas = ⟨dI, dEx, dP, dC, dD, true, none⟩ ∧
      (async_update_data st inp).1.prev_totals =
        some ⟨cI, cEx, cP, cC, cD, inp.co2⟩) ∧
    (∀ r, List.findSome? id [rI, rEx, rP, rC, rD] = some r →
      (async_update_data st inp).2.deltas = ⟨0, 0, 0, 0, 0, false, some r⟩ ∧
      (async_update_data st inp).1.prev_totals =
        some ⟨cI, cEx, cP, cC, cD, inp.co2⟩) := by
  have hkey := async_update_data_readable st inp p cI cEx cP cC cD hp hI hEx hP hC hD
  have e2I : (delta_or_invalid cI p.imported_kwh).2 = rI := by
    rw [delta_or_invalid_snd, hrI, hdI]
  have e2Ex : (delta_or_invalid cEx p.exported_kwh).2 = rEx := by
    rw [delta_or_invalid_snd, hrEx, hdEx]
  have e2P : (delta_or_invalid cP p.produced_kwh).2 = rP := by
    rw [delta_or_invalid_snd, hrP, hdP]
  have e2C : (delta_or_invalid cC p.battery_charge_kwh).2 = rC := by
    rw [delta_or_invalid_snd, hrC, hdC]
  have e2D : (delta_or_invalid cD p.battery_discharge_kwh).2 = rD := by
    rw [delta_or_invalid_snd, hrD, hdD]
  rw [e2I, e2Ex, e2P, e2C, e2D] at hkey
  constructor
  · intro hnone
    have hall := List.findSome?_eq_none_iff.mp hnone
    have hrIn : rI = none := hall rI (by simp)
    have hrExn : rEx = none := hall rEx (by simp)
    have hrPn : rP = none := hall rP (by simp)
    have hrCn : rC = none := hall rC (by simp)
    have hrDn : rD = none := hall rD (by simp)
    rw [hkey, hnone]
    refine ⟨?_, rfl⟩
    dsimp only
    rw [delta_or_invalid_fst cI p.imported_kwh,
      delta_or_invalid_fst cEx p.exported_kwh,
      delta_or_invalid_fst cP p.produced_kwh,
      delta_or_invalid_fst cC p.battery_charge_kwh,
      delta_or_invalid_fst cD p.battery_discharge_kwh,
      e2I, e2Ex, e2P, e2C, e2D, hrIn, hrExn, hrPn, hrCn, hrDn]
    simp [hdI, hdEx, hdP, hdC, hdD]
  · intro r hsome
    rw [hkey, hsome]
    exact ⟨rfl, rfl⟩

theorem readable_cycle_delta_classification_witness :
    ((⟨some ⟨1, 2, 3, 4, 5, 0⟩, 0⟩ : EngineState).prev_totals
        = some ⟨1, 2, 3, 4, 5, 0⟩) ∧
    (List.findSome? id
        ([none, none, none, none, none] : List (Option String)) = none) ∧
    ((async_update_data ⟨some ⟨1, 2, 3, 4, 5, 0⟩, 0⟩
        ⟨[some 2], [some 2], [some 3], [some 4], [some 5], 7⟩).2.deltas =
      ⟨1, 0, 0, 0, 0, true, none⟩ ∧
     (async_update_data ⟨some ⟨1, 2, 3, 4, 5, 0⟩, 0⟩
        ⟨[some 2], [some 2], [some 3], [some 4], [some 5], 7⟩).1.prev_totals =
      some ⟨2, 2, 3, 4, 5, 7⟩) :=
  ⟨rfl, by decide,
   (readable_cycle_delta_classification
      ⟨some ⟨1, 2, 3, 4, 5, 0⟩, 0⟩
      ⟨[some 2], [some 2], [some 3], [some 4], [some 5], 7⟩
      ⟨1, 2, 3, 4, 5, 0⟩ 2 2 3 4 5 1 0 0 0 0 none none none none none
      rfl
      (by rw [sum_energy_kwh_strict_singleton,
        round6_of_eq_int (2 : ℚ) 2000000 (by norm_num)]; norm_num)
      (by rw [sum_energy_kwh_strict_singleton,
        round6_of_eq_int (2 : ℚ) 2000000 (by norm_num)]; norm_num)
      (by rw [sum_energy_kwh_strict_singleton,
        round6_of_eq_int (3 : ℚ) 3000000 (by norm_num)]; norm_num)
      (by rw [sum_energy_kwh_strict_singleton,
        round6_of_eq_int (4 : ℚ) 4000000 (by norm_num)]; norm_num)
      (by rw [sum_energy_kwh_strict_singleton,
        round6_of_eq_int (5 : ℚ) 5000000 (by norm_num)]; norm_num)
      (by rw [round6_of_eq_int ((2 : ℚ) - 1) 1000000 (by norm_num)]; norm_num)
      (by rw [round6_of_eq_int ((2 : ℚ) - 2) 0 (by norm_num)]; norm_num)
      (by rw [round6_of_eq_int ((3 : ℚ) - 3) 0 (by norm_num)]; norm_num)
      (by rw [round6_of_eq_int ((4 : ℚ) - 4) 0 (by norm_num)]; norm_num)
      (by rw [round6_of_eq_int ((5 : ℚ) - 5) 0 (by norm_num)]; norm_num)
      (by rw [max_kwh_per_change_eq]; norm_num)
      (by rw [max_kwh_per_change_eq]; norm_num)
      (by rw [max_kwh_per_change_eq]; norm_num)
      (by rw [max_kwh_per_change_eq]; norm_num)
      (by rw [max_kwh_per_change_eq]; norm_num)).1
     (by decide)⟩

theorem energy_deltas_invariant_witness :
    (async_update_data ⟨none, 0⟩
        ⟨[none], [], [], [], [], 0⟩).2.deltas.dA_imported_kwh = 0 ∧
    (async_update_data ⟨none, 0⟩
        ⟨[none], [], [], [], [], 0⟩).2.deltas.dB_exported_kwh = 0 ∧
    (async_update_data ⟨none, 0⟩
        ⟨[none], [], [], [], [], 0⟩).2.deltas.dC_produced_kwh = 0 ∧
    (async_update_data ⟨none, 0⟩
        ⟨[none], [], [], [], [], 0⟩).2.deltas.dD_charge_kwh = 0 ∧
    (async_update_data ⟨none, 0⟩
        ⟨[none], [], [], [], [], 0⟩).2.deltas.dE_discharge_kwh = 0 ∧
    ((async_update_data ⟨none, 0⟩
        ⟨[none], [], [], [], [], 0⟩).2.deltas.reason = some "initial" ∨
     (async_update_data ⟨none, 0⟩
        ⟨[none], [], [], [], [], 0⟩).2.deltas.reason = some "missing_input" ∨
     (async_update_data ⟨none, 0⟩
        ⟨[none], [], [], [], [], 0⟩).2.deltas.reason = some "negative_delta" ∨
     (async_update_data ⟨none, 0⟩
        ⟨[none], [], [], [], [], 0⟩).2.deltas.reason = some "spike_detected") :=
  (energy_deltas_invariant ⟨none, 0⟩ ⟨[none], [], [], [], [], 0⟩).1 (by decide)

/-- C3: over a run that starts with an empty baseline and feeds N+1
readable totals records (all on the 6-decimal grid, all non-negative, every
per-cycle change neither negative nor above the spike ceiling), the summed
per-source deltas across all cycles telescope to `totals[N] - totals[0]`,
and the engine ends re-baselined at the final totals. -/
theorem accepted_deltas_telescoping
    (t0 : EnergyTotals) (ts : List EnergyTotals) (n : ℕ)
    (hm : ∀ t ∈ t0 :: ts, MicroTotals t)
    (hnn : ∀ t ∈ t0 :: ts,
      0 ≤ t.imported_kwh ∧ 0 ≤ t.exported_kwh ∧ 0 ≤ t.produced_kwh ∧
      0 ≤ t.battery_charge_kwh ∧ 0 ≤ t.battery_discharge_kwh)
    (hchain : List.Chain StepOk t0 ts) :
    ((runUpdates ⟨none, n⟩ ((t0 :: ts).map inputOfTotals)).2.map
        (fun r => r.deltas.dA_imported_kwh)).sum
      = (ts.getLastD t0).imported_kwh - t0.imported_kwh ∧
    ((runUpdates ⟨none, n⟩ ((t0 :: ts).map inputOfTotals)).2.map
        (fun r => r.deltas.dB_exported_kwh)).sum
      = (ts.getLastD t0).exported_kwh - t0.exported_kwh ∧
    ((runUpdates ⟨none, n⟩ ((t0 :: ts).map inputOfTotals)).2.map
        (fun r => r.deltas.dC_produced_kwh)).sum
      = (ts.getLastD t0).produced_kwh - t0.produced_kwh ∧
    ((runUpdates ⟨none, n⟩ ((t0 :: ts).map inputOfTotals)).2.map
        (fun r => r.deltas.dD_charge_kwh)).sum
      = (ts.getLastD t0).battery_charge_kwh - t0.battery_charge_kwh ∧
    ((runUpdates ⟨none, n⟩ ((t0 :: ts).map inputOfTotals)).2.map
        (fun r => r.deltas.dE_discharge_kwh)).sum
      = (ts.getLastD t0).battery_discharge_kwh - t0.battery_discharge_kwh ∧
    (runUpdates ⟨none, n⟩ ((t0 :: ts).map inputOfTotals)).1.prev_totals
      = some (ts.getLastD t0) := by
  have hm0 := hm t0 (List.mem_cons_self t0 ts)
  have hinit := async_update_data_initial ⟨none, n⟩ (inputOfTotals t0)
    t0.imported_kwh t0.exported_kwh t0.produced_kwh t0.battery_charge_kwh
    t0.battery_discharge_kwh rfl
    (sum_singleton_micro hm0.1) (sum_singleton_micro hm0.2.1)
    (sum_singleton_micro hm0.2.2.1) (sum_singleton_micro hm0.2.2.2.1)
    (sum_singleton_micro hm0.2.2.2.2)
  have hrun := runUpdates_telescope ts t0 (n + 1) hm0
    (fun u hu => hm u (List.mem_cons_of_mem _ hu)) hchain
  simp only [List.map_cons, runUpdates, hinit, List.sum_cons]
  simpa using hrun

theorem accepted_deltas_telescoping_witness :
    List.Chain StepOk ⟨0, 0, 0, 0, 0, 0⟩ [⟨1, 1, 1, 1, 1, 0⟩] ∧
    ((runUpdates ⟨none, 0⟩
        (([⟨0, 0, 0, 0, 0, 0⟩, ⟨1, 1, 1, 1, 1, 0⟩] :
          List EnergyTotals).map inputOfTotals)).2.map
        (fun r => r.deltas.dA_imported_kwh)).sum
      = (([⟨1, 1, 1, 1, 1, 0⟩] : List EnergyTotals).getLastD
          ⟨0, 0, 0, 0, 0, 0⟩).imported_kwh -
        (⟨0, 0, 0, 0, 0, 0⟩ : EnergyTotals).imported_kwh :=
  have hchain : List.Chain StepOk ⟨0, 0, 0, 0, 0, 0⟩ [⟨1, 1, 1, 1, 1, 0⟩] :=
    List.Chain.cons (by norm_num [StepOk, max_kwh_per_change_eq]) List.Chain.nil
  ⟨hchain,
   (accepted_deltas_telescoping ⟨0, 0, 0, 0, 0, 0⟩ [⟨1, 1, 1, 1, 1, 0⟩] 0
      (by
        intro t ht
        simp only [List.mem_cons, List.not_mem_nil, or_false] at ht
        rcases ht with rfl | rfl
        · exact ⟨⟨0, by norm_num⟩, ⟨0, by norm_num⟩, ⟨0, by norm_num⟩,
            ⟨0, by norm_num⟩, ⟨0, by norm_num⟩⟩
        · exact ⟨⟨1000000, by norm_num⟩, ⟨1000000, by norm_num⟩,
            ⟨1000000, by norm_num⟩, ⟨1000000, by norm_num⟩,
            ⟨1000000, by norm_num⟩⟩)
      (by
        intro t ht
        simp only [List.mem_cons, List.not_mem_nil, or_false] at ht
        rcases ht with rfl | rfl <;> norm_num)
      hchain).1⟩

instance : IsTotal Snapshot dateDesc :=
  ⟨fun a b => le_total (dateKey b) (dateKey a)⟩

instance : IsTrans Snapshot dateDesc :=
  ⟨fun _ _ _ hab hbc => le_trans hbc hab⟩

lemma length_filter_lt_iff {α : Type} (p : α → Bool) (l : List α) :
    (l.filter p).length < l.length ↔ ∃ x ∈ l, ¬ p x = true := by
  induction l with
  | nil => simp
  | cons a t ih =>
    by_cases hpa : p a = true
    · simp only [List.filter_cons, hpa, if_true, List.length_cons,
        Nat.add_lt_add_iff_right, ih, List.mem_cons]
      constructor
      · rintro ⟨x, hx, hpx⟩; exact ⟨x, Or.inr hx, hpx⟩
      · rintro ⟨x, hx | hx, hpx⟩
        · exact absurd (hx ▸ hpa) hpx
        · exact ⟨x, hx, hpx⟩
    · simp only [List.filter_cons, hpa, if_false, List.length_cons]
      constructor
      · intro _; exact ⟨a, List.mem_cons_self a t, hpa⟩
      · intro _; exact Nat.lt_succ_of_le (List.length_filter_le p t)

/-- C5: a retention pass over a loaded, newest-first store leaves only
snapshots dated on or after the cutoff, keeps them newest-first, and
persists exactly when at least one record was dropped. -/
theorem cleanup_retention_spec (st : MetricsStore) (cutoff : String)
    (hl : st.loaded = true)
    (hs : List.Sorted dateDesc st.daily_snapshots) :
    (∀ s ∈ (cleanup_old_snapshots cutoff st).daily_snapshots,
      cutoff ≤ dateKey s) ∧
    List.Sorted dateDesc (cleanup_old_snapshots cutoff st).daily_snapshots ∧
    ((∃ s ∈ st.daily_snapshots, ¬ cutoff ≤ dateKey s) →
      (cleanup_old_snapshots cutoff st).saves = st.saves + 1) ∧
    ((∀ s ∈ st.daily_snapshots, cutoff ≤ dateKey s) →
      (cleanup_old_snapshots cutoff st).saves = st.saves) := by
  unfold cleanup_old_snapshots
  dsimp only
  by_cases hlt : (st.daily_snapshots.filter
      (fun s => cutoff ≤ dateKey s)).length < st.daily_snapshots.length
  · rw [if_pos hlt]
    unfold async_save
    rw [if_pos hl]
    refine ⟨?_, ?_, ?_, ?_⟩
    · intro s hsmem
      have := List.mem_filter.mp hsmem
      exact of_decide_eq_true this.2
    · exact List.Pairwise.filter _ hs
    · intro _; rfl
    · intro hall
      exfalso
      obtain ⟨x, hx, hpx⟩ := (length_filter_lt_iff _ _).mp hlt
      exact hpx (decide_eq_true (hall x hx))
  · rw [if_neg hlt]
    refine ⟨?_, ?_, ?_, ?_⟩
    · intro s hsmem
      have := List.mem_filter.mp hsmem
      exact of_decide_eq_true this.2
    · exact List.Pairwise.filter _ hs
    · intro ⟨x, hx, hpx⟩
      exfalso
      exact hlt ((length_filter_lt_iff _ _).mpr
        ⟨x, hx, fun hd => hpx (of_decide_eq_true hd)⟩)
    · intro _; rfl

theorem cleanup_retention_spec_witness :
    ((⟨[[("date", JVal.str "2025-01-05"), ("net_use", JVal.num 4)]],
      true, 0⟩ : MetricsStore).loaded = true) ∧
    List.Sorted dateDesc
      (⟨[[("date", JVal.str "2025-01-05"), ("net_use", JVal.num 4)]],
        true, 0⟩ : MetricsStore).daily_snapshots ∧
    ((∀ s ∈ (cleanup_old_snapshots "2025-12-01"
        ⟨[[("date", JVal.str "2025-01-05"), ("net_use", JVal.num 4)]],
          true, 0⟩).daily_snapshots, "2025-12-01" ≤ dateKey s) ∧
     List.Sorted dateDesc (cleanup_old_snapshots "2025-12-01"
        ⟨[[("date", JVal.str "2025-01-05"), ("net_use", JVal.num 4)]],
          true, 0⟩).daily_snapshots ∧
     ((∃ s ∈ (⟨[[("date", JVal.str "2025-01-05"), ("net_use", JVal.num 4)]],
          true, 0⟩ : MetricsStore).daily_snapshots,
        ¬ "2025-12-01" ≤ dateKey s) →
      (cleanup_old_snapshots "2025-12-01"
        ⟨[[("date", JVal.str "2025-01-05"), ("net_use", JVal.num 4)]],
          true, 0⟩).saves =
        (⟨[[("date", JVal.str "2025-01-05"), ("net_use", JVal.num 4)]],
          true, 0⟩ : MetricsStore).saves + 1) ∧
     ((∀ s ∈ (⟨[[("date", JVal.str "2025-01-05"), ("net_use", JVal.num 4)]],
          true, 0⟩ : MetricsStore).daily_snapshots,
        "2025-12-01" ≤ dateKey s) →
      (cleanup_old_snapshots "2025-12-01"
        ⟨[[("date", JVal.str "2025-01-05"), ("net_use", JVal.num 4)]],
          true, 0⟩).saves =
        (⟨[[("date", JVal.str "2025-01-05"), ("net_use", JVal.num 4)]],
          true, 0⟩ : MetricsStore).saves)) :=
  ⟨rfl, List.sorted_singleton _,
   cleanup_retention_spec
     ⟨[[("date", JVal.str "2025-01-05"), ("net_use", JVal.num 4)]],
       true, 0⟩ "2025-12-01" rfl (List.sorted_singleton _)⟩

lemma async_save_snapshots (st : MetricsStore) :
    (async_save st).daily_snapshots = st.daily_snapshots := by
  unfold async_save
  split <;> rfl

lemma async_save_loaded (st : MetricsStore) :
    (async_save st).loaded = st.loaded := by
  unfold async_save
  split <;> rfl

lemma add_daily_snapshot_eq (st : MetricsStore) (snap : Snapshot)
    (dv : JVal) (hd : sget snap "date" = some dv)
    (ht : dateTruthy (some dv) = true) :
    add_daily_snapshot st snap =
      async_save { st with daily_snapshots := (List.insertionSort dateDesc
        ((st.daily_snapshots.filter
          (fun s => sget s "date" ≠ some dv)) ++ [snap])) } := by
  unfold add_daily_snapshot
  rw [hd, if_pos ht]

lemma add_daily_snapshot_filter_date (st : MetricsStore) (snap : Snapshot)
    (dv : JVal) (hd : sget snap "date" = some dv)
    (ht : dateTruthy (some dv) = true) :
    (add_daily_snapshot st snap).daily_snapshots.filter
      (fun s => sget s "date" = some dv) = [snap] := by
  rw [add_daily_snapshot_eq st snap dv hd ht, async_save_snapshots]
  have hperm := (List.perm_insertionSort dateDesc
    ((st.daily_snapshots.filter (fun s => sget s "date" ≠ some dv)) ++
      [snap])).filter (fun s => decide (sget s "date" = some dv))
  have hright : ((st.daily_snapshots.filter
      (fun s => sget s "date" ≠ some dv)) ++ [snap]).filter
        (fun s => decide (sget s "date" = some dv)) = [snap] := by
    rw [List.filter_append]
    have h1 : (st.daily_snapshots.filter
        (fun s => sget s "date" ≠ some dv)).filter
          (fun s => decide (sget s "date" = some dv)) = [] := by
      rw [List.filter_eq_nil_iff]
      intro a ha
      have hne := of_decide_eq_true (List.mem_filter.mp ha).2
      simp [hne]
    have h2 : List.filter (fun s => decide (sget s "date" = some dv)) [snap]
        = [snap] := by
      simp [List.filter, hd]
    rw [h1, h2, List.nil_append]
  rw [hright] at hperm
  exact List.perm_singleton.mp hperm

/-- C4: `add_daily_snapshot` on a loaded store rejects a snapshot whose date
is missing (a no-op on the whole store state); on a dated snapshot it
replaces any same-date records, keeps the collection a newest-first
reordering of the others plus the new record, persists exactly once, leaves
exactly one record for that date (the snapshot itself, fields intact), and
doing the same upsert twice still leaves exactly that one record. -/
theorem add_daily_snapshot_upsert_spec (st : MetricsStore) (snap : Snapshot)
    (hl : st.loaded = true) :
    (dateTruthy (sget snap "date") = false → add_daily_snapshot st snap = st) ∧
    (∀ dv, sget snap "date" = some dv → dateTruthy (some dv) = true →
      ((add_daily_snapshot st snap).daily_snapshots.Perm
        ((st.daily_snapshots.filter
          (fun s => sget s "date" ≠ some dv)) ++ [snap]) ∧
       List.Sorted dateDesc (add_daily_snapshot st snap).daily_snapshots ∧
       (add_daily_snapshot st snap).saves = st.saves + 1 ∧
       (add_daily_snapshot st snap).daily_snapshots.filter
         (fun s => sget s "date" = some dv) = [snap] ∧
       (add_daily_snapshot (add_daily_snapshot st snap)
           snap).daily_snapshots.filter
         (fun s => sget s "date" = some dv) = [snap])) := by
  constructor
  · intro h
    unfold add_daily_snapshot
    rw [if_neg]
    simp [h]
  · intro dv hd ht
    refine ⟨?_, ?_, ?_,
      add_daily_snapshot_filter_date st snap dv hd ht,
      add_daily_snapshot_filter_date (add_daily_snapshot st snap)
        snap dv hd ht⟩
    · rw [add_daily_snapshot_eq st snap dv hd ht, async_save_snapshots]
      exact List.perm_insertionSort dateDesc _
    · rw [add_daily_snapshot_eq st snap dv hd ht, async_save_snapshots]
      exact List.sorted_insertionSort dateDesc _
    · rw [add_daily_snapshot_eq st snap dv hd ht]
      unfold async_save
      rw [if_pos hl]

theorem add_daily_snapshot_upsert_spec_witness :
    ((⟨[], true, 0⟩ : MetricsStore).loaded = true) ∧
    (sget [("date", JVal.str "2026-01-01"), ("net_use", JVal.num 5)] "date"
      = some (JVal.str "2026-01-01")) ∧
    dateTruthy (some (JVal.str "2026-01-01")) = true ∧
    ((add_daily_snapshot ⟨[], true, 0⟩
        [("date", JVal.str "2026-01-01"),
         ("net_use", JVal.num 5)]).daily_snapshots.Perm
      (((⟨[], true, 0⟩ : MetricsStore).daily_snapshots.filter
        (fun s => sget s "date" ≠ some (JVal.str "2026-01-01"))) ++
        [[("date", JVal.str "2026-01-01"), ("net_use", JVal.num 5)]]) ∧
     List.Sorted dateDesc (add_daily_snapshot ⟨[], true, 0⟩
        [("date", JVal.str "2026-01-01"),
         ("net_use", JVal.num 5)]).daily_snapshots ∧
     (add_daily_snapshot ⟨[], true, 0⟩
        [("date", JVal.str "2026-01-01"),
         ("net_use", JVal.num 5)]).saves =
       (⟨[], true, 0⟩ : MetricsStore).saves + 1 ∧
     (add_daily_snapshot ⟨[], true, 0⟩
        [("date", JVal.str "2026-01-01"),
         ("net_use", JVal.num 5)]).daily_snapshots.filter
       (fun s => sget s "date" = some (JVal.str "2026-01-01")) =
       [[("date", JVal.str "2026-01-01"), ("net_use", JVal.num 5)]] ∧
     (add_daily_snapshot (add_daily_snapshot ⟨[], true, 0⟩
          [("date", JVal.str "2026-01-01"), ("net_use", JVal.num 5)])
        [("date", JVal.str "2026-01-01"),
         ("net_use", JVal.num 5)]).daily_snapshots.filter
       (fun s => sget s "date" = some (JVal.str "2026-01-01")) =
       [[("date", JVal.str "2026-01-01"), ("net_use", JVal.num 5)]]) :=
  ⟨rfl, rfl, by decide,
   (add_daily_snapshot_upsert_spec ⟨[], true, 0⟩
      [("date", JVal.str "2026-01-01"), ("net_use", JVal.num 5)] rfl).2
     (JVal.str "2026-01-01") rfl (by decide)⟩

lemma filterMap_filter {α β : Type} (p : α → Bool) (f : α → Option β)
    (l : List α) :
    (l.filter p).filterMap f =
      l.filterMap (fun a => if p a then f a else none) := by
  induction l with
  | nil => rfl
  | cons a t ih =>
    by_cases h : p a = true <;>
      simp [List.filter_cons, List.filterMap_cons, h, ih]

lemma foldl_min_mem (vs : List ℚ) :
    ∀ v : ℚ, vs.foldl min v = v ∨ vs.foldl min v ∈ vs := by
  induction vs with
  | nil => intro v; left; rfl
  | cons a t ih =>
    intro v
    rw [List.foldl_cons]
    rcases ih (min v a) with h | h
    · rcases min_choice v a with hm | hm
      · left; rw [h, hm]
      · right; rw [h, hm]; exact List.mem_cons_self a t
    · right; exact List.mem_cons_of_mem _ h

lemma foldl_min_le (vs : List ℚ) :
    ∀ (v x : ℚ), (x = v ∨ x ∈ vs) → vs.foldl min v ≤ x := by
  induction vs with
  | nil =>
    rintro v x (rfl | hx)
    · exact le_refl x
    · exact absurd hx (List.not_mem_nil x)
  | cons a t ih =>
    intro v x hx
    rw [List.foldl_cons]
    rcases hx with rfl | hxt
    · exact le_trans (ih (min x a) (min x a) (Or.inl rfl))
        (min_le_left x a)
    · rcases List.mem_cons.mp hxt with rfl | hxt2
      · exact le_trans (ih (min v x) (min v x) (Or.inl rfl))
          (min_le_right v x)
      · exact ih (min v a) x (Or.inr hxt2)

lemma foldl_max_mem (vs : List ℚ) :
    ∀ v : ℚ, vs.foldl max v = v ∨ vs.foldl max v ∈ vs := by
  induction vs with
  | nil => intro v; left; rfl
  | cons a t ih =>
    intro v
    rw [List.foldl_cons]
    rcases ih (max v a) with h | h
    · rcases max_choice v a with hm | hm
      · left; rw [h, hm]
      · right; rw [h, hm]; exact List.mem_cons_self a t
    · right; exact List.mem_cons_of_mem _ h

lemma foldl_max_le (vs : List ℚ) :
    ∀ (v x : ℚ), (x = v ∨ x ∈ vs) → x ≤ vs.foldl max v := by
  induction vs with
  | nil =>
    rintro v x (rfl | hx)
    · exact le_refl x
    · exact absurd hx (List.not_mem_nil x)
  | cons a t ih =>
    intro v x hx
    rw [List.foldl_cons]
    rcases hx with rfl | hxt
    · exact le_trans (le_max_left x a)
        (ih (max x a) (max x a) (Or.inl rfl))
    · rcases List.mem_cons.mp hxt with rfl | hxt2
      · exact le_trans (le_max_right v x)
          (ih (max v x) (max v x) (Or.inl rfl))
      · exact ih (max v a) x (Or.inr hxt2)

/-- The window queries' value pipeline (`relevant_snapshots` then numeric
projection) equals a single pass keeping values that are date-eligible,
present and numeric. -/
lemma query_values_eq (st : MetricsStore) (key cutoff : String) :
    (relevant_snapshots st key cutoff).filterMap (fun s => numVal s key) =
      st.daily_snapshots.filterMap
        (fun s => if decide (cutoff ≤ dateKey s)
          then numVal s key else none) := by
  unfold relevant_snapshots
  rw [filterMap_filter]
  apply List.filterMap_congr
  intro s _
  cases hsg : sget s key with
  | none => simp [numVal, hsg]
  | some jv => simp [hsg]

/-- C8: each window query filters to snapshots with date at or after the
cutoff whose metric is present and numeric; with no qualifying value,
average and max return `0.0` and min its `999999` sentinel; otherwise they
return the arithmetic mean, a greatest qualifying value, and a least
qualifying value.  (Every query is a total function of the store: no
invocation can fail.) -/
theorem metrics_query_sentinels_and_aggregates
    (st : MetricsStore) (key cutoff : String) (hl : st.loaded = true) :
    (st.daily_snapshots.filterMap
        (fun s => if decide (cutoff ≤ dateKey s)
          then numVal s key else none) = [] →
      get_average st key cutoff = 0 ∧ get_max st key cutoff = 0 ∧
      get_min st key cutoff = 999999) ∧
    (∀ v vs, st.daily_snapshots.filterMap
        (fun s => if decide (cutoff ≤ dateKey s)
          then numVal s key else none) = v :: vs →
      get_average st key cutoff = (v :: vs).sum / ((v :: vs).length : ℚ) ∧
      (get_min st key cutoff = v ∨ get_min st key cutoff ∈ vs) ∧
      (∀ x, (x = v ∨ x ∈ vs) → get_min st key cutoff ≤ x) ∧
      (get_max st key cutoff = v ∨ get_max st key cutoff ∈ vs) ∧
      (∀ x, (x = v ∨ x ∈ vs) → x ≤ get_max st key cutoff)) := by
  have hq := query_values_eq st key cutoff
  constructor
  · intro hnil
    rw [hnil] at hq
    unfold get_average get_min get_max
    by_cases hrel : relevant_snapshots st key cutoff = []
    · simp [hl, hrel]
    · simp [hl, hrel, hq]
  · intro v vs hcons
    rw [hcons] at hq
    have hrel : ¬ relevant_snapshots st key cutoff = [] := by
      intro h
      rw [h] at hq
      exact List.cons_ne_nil v vs hq.symm
    unfold get_average get_min get_max
    simp only [hl, Bool.not_true, Bool.false_eq_true, if_false, hq,
      if_neg hrel, if_neg (List.cons_ne_nil v vs)]
    refine ⟨by trivial, ?_, ?_, ?_, ?_⟩
    · exact foldl_min_mem vs v
    · exact fun x hx => foldl_min_le vs v x hx
    · exact foldl_max_mem vs v
    · exact fun x hx => foldl_max_le vs v x hx

theorem metrics_query_sentinels_and_aggregates_witness :
    ((⟨[], true, 0⟩ : MetricsStore).loaded = true) ∧
    ((⟨[], true, 0⟩ : MetricsStore).daily_snapshots.filterMap
      (fun s => if decide ("2026-01-01" ≤ dateKey s)
        then numVal s "net_use" else none) = []) ∧
    (get_average ⟨[], true, 0⟩ "net_use" "2026-01-01" = 0 ∧
     get_max ⟨[], true, 0⟩ "net_use" "2026-01-01" = 0 ∧
     get_min ⟨[], true, 0⟩ "net_use" "2026-01-01" = 999999) :=
  ⟨rfl, rfl,
   (metrics_query_sentinels_and_aggregates ⟨[], true, 0⟩
      "net_use" "2026-01-01" rfl).1 rfl⟩

lemma maybe_create_already_done (today : String) (inp : DailyInputs)
    (s : SnapshotState) (h : s.last_snapshot_date = some today) :
    maybe_create_daily_snapshot today inp s = s := by
  unfold maybe_create_daily_snapshot
  rw [if_pos h]

lemma run_triggers_done (today : String) (inps : List DailyInputs) :
    ∀ s : SnapshotState, s.last_snapshot_date = some today →
      (run_snapshot_triggers today s inps).1 = s ∧
      (run_snapshot_triggers today s inps).2 = 0 := by
  induction inps with
  | nil => intro s _; exact ⟨rfl, rfl⟩
  | cons inp rest ih =>
    intro s h
    have hm := maybe_create_already_done today inp s h
    simp [run_snapshot_triggers, hm, h, (ih s h).1, (ih s h).2]

lemma run_triggers_le_one (today : String) (inps : List DailyInputs) :
    ∀ s : SnapshotState, (run_snapshot_triggers today s inps).2 ≤ 1 := by
  induction inps with
  | nil => intro s; simp [run_snapshot_triggers]
  | cons inp rest ih =>
    intro s
    by_cases h : s.last_snapshot_date = some today
    · have hm := maybe_create_already_done today inp s h
      simp [run_snapshot_triggers, hm, h, (run_triggers_done today rest s h).2]
    · cases hb : build_daily_snapshot today inp with
      | none =>
        have hm : maybe_create_daily_snapshot today inp s = s := by
          unfold maybe_create_daily_snapshot
          rw [if_neg h, hb]
        simp only [run_snapshot_triggers, hm, hb, Option.isSome_none,
          Bool.false_eq_true, and_false, if_false, Nat.zero_add]
        exact ih s
      | some snap =>
        have hm : maybe_create_daily_snapshot today inp s =
            ⟨add_daily_snapshot s.metrics_store snap, some today⟩ := by
          unfold maybe_create_daily_snapshot
          rw [if_neg h, hb]
        have hdone := (run_triggers_done today rest
          ⟨add_daily_snapshot s.metrics_store snap, some today⟩ rfl).2
        simp [run_snapshot_triggers, hm, h, hb, hdone]

/-- C10: a trigger with both net-use and production readings at `0.0` builds
no snapshot and leaves the snapshot state (metrics store included)
untouched; and over any same-day sequence of triggers (midnight callback or
post-midnight recomputations) the engine creates at most one snapshot. -/
theorem daily_snapshot_meaningful_and_unique :
    (∀ (today : String) (inp : DailyInputs) (s : SnapshotState),
      inp.net_use = 0 → inp.production = 0 →
      maybe_create_daily_snapshot today inp s = s) ∧
    (∀ (today : String) (s : SnapshotState) (inps : List DailyInputs),
      (run_snapshot_triggers today s inps).2 ≤ 1) := by
  constructor
  · intro today inp s hn hp
    by_cases h : s.last_snapshot_date = some today
    · exact maybe_create_already_done today inp s h
    · unfold maybe_create_daily_snapshot
      rw [if_neg h]
      have hb : build_daily_snapshot today inp = none := by
        unfold build_daily_snapshot
        rw [if_pos ⟨hn, hp⟩]
      rw [hb]
  · intro today s inps
    exact run_triggers_le_one today inps s

theorem daily_snapshot_meaningful_and_unique_witness :
    maybe_create_daily_snapshot "2026-01-01" ⟨0, 0, 3, 4, none⟩
        ⟨⟨[], true, 0⟩, none⟩ = ⟨⟨[], true, 0⟩, none⟩ ∧
    (run_snapshot_triggers "2026-01-01" ⟨⟨[], true, 0⟩, none⟩
      [⟨1, 2, 3, 4, none⟩, ⟨1, 2, 3, 4, none⟩]).2 ≤ 1 :=
  ⟨daily_snapshot_meaningful_and_unique.1 "2026-01-01" ⟨0, 0, 3, 4, none⟩
     ⟨⟨[], true, 0⟩, none⟩ rfl rfl,
   daily_snapshot_meaningful_and_unique.2 "2026-01-01" ⟨⟨[], true, 0⟩, none⟩
     [⟨1, 2, 3, 4, none⟩, ⟨1, 2, 3, 4, none⟩]⟩

end EnergyCore
